import Mathlib

/-!
Verification of the FAIRy rule-evaluation engine
(`fairy/core/services/validator.py` and the preflight branch of
`fairy/cli/run.py`).

Modelling conventions:
* Tables loaded by pandas (`pd.read_csv(..., sep="\t", dtype=str).fillna("")`)
  are string tables; the checks in `fairy/core/validators/rna.py` are not part
  of the sources, so the check library is an abstract parameter (a structure
  of functions): every claim below concerns the dispatcher, the finding
  mapper and the attestation builder, which only pass tables through.
* `WarningItem` is modelled from the spec (its defining module
  `fairy/core/validation_api.py` is not among the sources): fields `kind`,
  `severity` (internal string), `message`, `hint`, optional `row` (int or
  None) and optional `column` (string or None).
* File hashing (`_sha256_file`) and the timestamp (`now_utc_iso`) are opaque
  I/O; they are abstract parameters `hash` and `now`.
* JSON loading of the rulepack is modelled by an `Option RawPack` input:
  `none` stands for malformed JSON, and a `RawPack` whose `rules` field is
  `none` stands for a JSON object lacking the `rules` key; in both cases the
  Python raises (`json.JSONDecodeError` resp. `KeyError`), modelled by
  `Except.error`.
* `_summarize_tabular` is modelled on its fallback path (the naive TSV
  splitter): the Frictionless branch is an optional external dependency and
  every exception it raises falls through to the fallback.  Python
  `str.splitlines` is modelled for `\n`-separated text.
-/

/-- A loaded string table: `pd.read_csv(path, sep="\t", dtype=str).fillna("")`.
Header order and row order are preserved; every cell is a string. -/
structure DataFrame where
  header : List String
  rows : List (List String)
deriving Repr, DecidableEq

/-- Modelled from the spec: the raw output record of one check function
(`fairy/core/validation_api.py` is not among the sources).  `severity` is the
internal string (`"error"` / `"warning"`); `row` is an optional zero-based
row index (absent or `-1` when not row-scoped); `column` an optional column
name. -/
structure WarningItem where
  kind : String
  severity : String
  message : String
  hint : String
  row : Option Int
  column : Option String
deriving Repr, DecidableEq

/-- The `details` sub-dict of a finding: kind/message/hint/row/column copied
from the `WarningItem`. -/
structure FindingDetails where
  kind : String
  message : String
  hint : String
  row : Option Int
  column : Option String
deriving Repr, DecidableEq

/-- One report-level finding, as built in the inner loop of `run_rulepack`. -/
structure Finding where
  code : String
  severity : String
  where_ : String
  why : String
  how_to_fix : String
  details : FindingDetails
deriving Repr, DecidableEq

/-- The `check` object of a rule.  `type` is read by direct indexing
(`spec["type"]`); every other parameter is read with `spec.get(key, default)`,
modelled as an `Option` with the default applied at the dispatch site. -/
structure CheckSpec where
  type : String
  required_columns : Option (List String)
  column_groups : Option (List (List String))
  left_key : Option String
  samples_key : Option String
  layout_column : Option String
  layout_value_for_paired : Option String
  file_column : Option String
  r1_pattern : Option String
  r2_pattern : Option String
  columns : Option (List String)
  raw_file_glob : Option String
  processed_glob_candidates : Option (List String)
deriving Repr, DecidableEq

/-- A rule of the rulepack; `code`, `check`, `where`, `why`, `how_to_fix` are
read by direct indexing in `run_rulepack`.  The Python key `where` is a Lean
keyword, hence the field name `where_`. -/
structure Rule where
  code : String
  check : CheckSpec
  where_ : String
  why : String
  how_to_fix : String
deriving Repr, DecidableEq

/-- The rulepack JSON object after parsing: `rulepack_id` and
`rulepack_version` are read with `.get` (optional), and `rules` is `none`
when the top-level `rules` key is missing. -/
structure RawPack where
  rulepack_id : Option String
  rulepack_version : Option String
  rules : Option (List Rule)
deriving Repr, DecidableEq

/-- The check library of `fairy/core/validators/rna.py`, abstract because
that module is not among the sources: one function per helper called by
`run_rulepack`, with the exact argument lists of the call sites. -/
structure CheckLib where
  check_required_columns : DataFrame → List String → List WarningItem
  check_bio_context : DataFrame → List String → List WarningItem
  check_id_crossmatch : DataFrame → DataFrame → String → List WarningItem
  check_paired_end_complete :
    DataFrame → String → String → String → String → String → String →
      List WarningItem
  check_dates_iso8601 : DataFrame → List String → List WarningItem
  check_processed_data_present :
    DataFrame → String → String → List String → List WarningItem

/-- Provenance record returned by `_summarize_tabular`. -/
structure TabSummary where
  path : String
  sha256 : String
  n_rows : Nat
  n_cols : Nat
  header : List String
deriving Repr, DecidableEq

/-- The attestation dict built at the end of `run_rulepack`. -/
structure Attestation where
  rulepack_id : String
  rulepack_version : String
  fairy_version : String
  run_at_utc : String
  submission_ready : Bool
  fail_count : Nat
  warn_count : Nat
  inputs_samples : TabSummary
  inputs_files : TabSummary
deriving Repr, DecidableEq

/-- The report returned by `run_rulepack`: `{attestation, findings}`. -/
structure Report where
  attestation : Attestation
  findings : List Finding
deriving Repr, DecidableEq

/-- Fatal error kinds of the engine (spec taxonomy `ConfigError`): raised by
`json.loads` on malformed JSON and by `pack["rules"]` on a missing key. -/
inductive RunError where
  | configError : String → RunError
deriving Repr, DecidableEq

/-- ASCII lowering of one character (the fragment of Python `str.lower`
relevant to the ASCII severity strings). -/
def lowerChar (c : Char) : Char :=
  match c with
  | 'A' => 'a' | 'B' => 'b' | 'C' => 'c' | 'D' => 'd' | 'E' => 'e'
  | 'F' => 'f' | 'G' => 'g' | 'H' => 'h' | 'I' => 'i' | 'J' => 'j'
  | 'K' => 'k' | 'L' => 'l' | 'M' => 'm' | 'N' => 'n' | 'O' => 'o'
  | 'P' => 'p' | 'Q' => 'q' | 'R' => 'r' | 'S' => 's' | 'T' => 't'
  | 'U' => 'u' | 'V' => 'v' | 'W' => 'w' | 'X' => 'x' | 'Y' => 'y'
  | 'Z' => 'z' | other => other

/-- Python `str.lower` on ASCII text. -/
def str_lower (s : String) : String := String.mk (s.toList.map lowerChar)

/-- Split a character list on a separator; like Python `str.split(sep)`,
the empty input yields one empty fragment. -/
def splitOnChar (sep : Char) : List Char → List (List Char)
  | [] => [[]]
  | c :: cs =>
    match splitOnChar sep cs with
    | [] => [[c]]
    | r :: rs => if c = sep then [] :: r :: rs else (c :: r) :: rs

/-- Python `s.split(sep)` for a one-character separator. -/
def str_split (sep : Char) (s : String) : List String :=
  (splitOnChar sep s.toList).map (fun cs => String.mk cs)

/-- `_map_severity`: `"FAIL" if internal.lower() == "error" else "WARN"`. -/
def _map_severity (internal : String) : String :=
  if str_lower internal == "error" then "FAIL" else "WARN"

/-- Truthiness of `issue.row is not None and issue.row >= 0`. -/
def rowScoped (row : Option Int) : Bool :=
  match row with
  | some r => 0 ≤ r
  | none => false

/-- Truthiness of the Python `if issue.column:` (None and `""` are falsy). -/
def colTruthy (column : Option String) : Bool :=
  match column with
  | some c => c ≠ ""
  | none => false

/-- Python `sep.join(parts)`: the parts interleaved with the separator. -/
def str_join (sep : String) : List String → String
  | [] => ""
  | [b] => b
  | b :: bs => b ++ sep ++ str_join sep bs

/-- `_where_from_issue`: build the `bits` list (`"row {row}"` when the row is
present and nonnegative, `"column '{col}'"` when the column is truthy), join
with `", "`, and fall back to the rule's static `where` when empty. -/
def _where_from_issue (issue : WarningItem) (fallback_where : String) : String :=
  let bits : List String :=
    (if rowScoped issue.row then
        ["row " ++ toString (issue.row.getD 0)]
      else []) ++
    (if colTruthy issue.column then
        ["column " ++ "'" ++ (issue.column.getD "") ++ "'"]
      else [])
  if bits ≠ [] then str_join ", " bits else fallback_where

/-- Python `str.splitlines` restricted to `\n` separators: split on `\n` and
drop the empty fragment a trailing newline leaves behind (`"".splitlines()`
is `[]`). -/
def splitlines (s : String) : List String :=
  let parts := str_split '\n' s
  if parts.getLast? = some "" then parts.dropLast else parts

/-- `_summarize_tabular` on its fallback path (naive TSV parse): header =
first line split on tabs, `n_rows = max(len(lines) - 1, 0)` (data rows,
header excluded), and the all-zero record for an empty file.  The content
hash `_sha256_file` is the abstract parameter `hash`. -/
def _summarize_tabular (hash : String → String) (p : String)
    (content : String) : TabSummary :=
  let lines := splitlines content
  if lines ≠ [] then
    let header := str_split '\t' (lines.headD "")
    { path := p, sha256 := hash content, n_rows := lines.length - 1,
      n_cols := header.length, header := header }
  else
    { path := p, sha256 := hash content, n_rows := 0, n_cols := 0,
      header := [] }

/-- The dispatch `if/elif` chain of `run_rulepack`: select the check by
`spec["type"]`, extract its parameters with `spec.get(key, default)`, and
return the resulting warning items; unknown types yield `[]`. -/
def dispatchCheck (lib : CheckLib) (samples_df files_df : DataFrame)
    (spec : CheckSpec) : List WarningItem :=
  if spec.type == "require_columns" then
    lib.check_required_columns samples_df (spec.required_columns.getD [])
  else if spec.type == "at_least_one_nonempty_per_row" then
    let column_groups := spec.column_groups.getD []
    let group0 := match column_groups with
      | [] => []
      | g :: _ => g
    lib.check_bio_context samples_df group0
  else if spec.type == "id_crosscheck" then
    lib.check_id_crossmatch samples_df files_df (spec.left_key.getD "sample_id")
  else if spec.type == "paired_end_complete" then
    lib.check_paired_end_complete files_df
      (spec.samples_key.getD "sample_id")
      (spec.layout_column.getD "layout")
      (spec.layout_value_for_paired.getD "PAIRED")
      (spec.file_column.getD "filename")
      (spec.r1_pattern.getD "_R1")
      (spec.r2_pattern.getD "_R2")
  else if spec.type == "dates_are_iso8601" then
    lib.check_dates_iso8601 samples_df (spec.columns.getD [])
  else if spec.type == "processed_data_present" then
    lib.check_processed_data_present files_df
      (spec.samples_key.getD "sample_id")
      (spec.raw_file_glob.getD ".fastq")
      (spec.processed_glob_candidates.getD [".counts", ".quant", ".gene_counts"])
  else
    []

/-- The body of the inner `for w in warning_items:` loop: one finding from a
`(rule, WarningItem)` pair. -/
def findingOfWarning (rule : Rule) (w : WarningItem) : Finding :=
  { code := rule.code,
    severity := _map_severity w.severity,
    where_ := _where_from_issue w rule.where_,
    why := rule.why,
    how_to_fix := rule.how_to_fix,
    details :=
      { kind := w.kind, message := w.message, hint := w.hint,
        row := w.row, column := w.column } }

/-- The `all_findings` accumulator of `run_rulepack`: iterate the rules in
declaration order, appending each rule's mapped findings. -/
def all_findings (lib : CheckLib) (samples_df files_df : DataFrame)
    (rules : List Rule) : List Finding :=
  rules.foldl
    (fun acc rule =>
      acc ++ (dispatchCheck lib samples_df files_df rule.check).map
        (findingOfWarning rule))
    []

/-- The report value `run_rulepack` returns once the rulepack parsed: count
severities over `all_findings`, summarize both inputs, and assemble the
attestation with `submission_ready = (fail_count == 0)`. -/
def buildReport (lib : CheckLib) (hash : String → String) (now : String)
    (rid rver : Option String) (rules : List Rule)
    (samples_df files_df : DataFrame)
    (samples_path files_path samples_content files_content : String)
    (fairy_version : String) : Report :=
  let findings := all_findings lib samples_df files_df rules
  let fail_count := findings.countP (fun f => f.severity == "FAIL")
  let warn_count := findings.countP (fun f => f.severity == "WARN")
  { attestation :=
      { rulepack_id := rid.getD "UNKNOWN_RULEPACK",
        rulepack_version := rver.getD "0.0.0",
        fairy_version := fairy_version,
        run_at_utc := now,
        submission_ready := fail_count == 0,
        fail_count := fail_count,
        warn_count := warn_count,
        inputs_samples := _summarize_tabular hash samples_path samples_content,
        inputs_files := _summarize_tabular hash files_path files_content },
    findings := findings }

/-- `run_rulepack`: fail on malformed rulepack JSON (`raw = none`) or a
missing `rules` key, otherwise return the report.  The loaded dataframes and
the raw file contents (used only for provenance) are passed in; `hash` and
`now` abstract `_sha256_file` and `now_utc_iso`. -/
def run_rulepack (lib : CheckLib) (hash : String → String) (now : String)
    (raw : Option RawPack) (samples_df files_df : DataFrame)
    (samples_path files_path samples_content files_content : String)
    (fairy_version : String) : Except RunError Report :=
  match raw with
  | none => Except.error (RunError.configError "malformed rulepack JSON")
  | some pack =>
    match pack.rules with
    | none => Except.error (RunError.configError "rulepack missing rules key")
    | some rules =>
      Except.ok (buildReport lib hash now pack.rulepack_id
        pack.rulepack_version rules samples_df files_df samples_path
        files_path samples_content files_content fairy_version)

/-- The exit-code computation of the `preflight` branch of `main` in
`fairy/cli/run.py`: `exit_code = 0 if att["submission_ready"] else 1`. -/
def preflight_exit_code (report : Report) : Nat :=
  if report.attestation.submission_ready then 0 else 1

/-- The six recognized `check.type` strings of the dispatch chain. -/
def knownCheckTypes : List String :=
  ["require_columns", "at_least_one_nonempty_per_row", "id_crosscheck",
   "paired_end_complete", "dates_are_iso8601", "processed_data_present"]

/-! Concrete fixtures used to instantiate the theorems below on closed
inputs. -/

/-- A check spec of the given type with every optional parameter absent. -/
def specOfType (t : String) : CheckSpec :=
  { type := t, required_columns := none, column_groups := none,
    left_key := none, samples_key := none, layout_column := none,
    layout_value_for_paired := none, file_column := none,
    r1_pattern := none, r2_pattern := none, columns := none,
    raw_file_glob := none, processed_glob_candidates := none }

/-- A check library whose every check returns the same fixed item list. -/
def constLib (ws : List WarningItem) : CheckLib :=
  { check_required_columns := fun _ _ => ws,
    check_bio_context := fun _ _ => ws,
    check_id_crossmatch := fun _ _ _ => ws,
    check_paired_end_complete := fun _ _ _ _ _ _ _ => ws,
    check_dates_iso8601 := fun _ _ => ws,
    check_processed_data_present := fun _ _ _ _ => ws }

/-- A row-scoped error item. -/
def errItem : WarningItem :=
  { kind := "missing_value", severity := "error", message := "m",
    hint := "h", row := some 0, column := some "tissue" }

/-- A warning-level item with no location. -/
def warnItem : WarningItem :=
  { kind := "no_processed", severity := "warning", message := "m2",
    hint := "h2", row := none, column := none }

/-- Library returning one error and one warning from every check. -/
def libEW : CheckLib := constLib [errItem, warnItem]

/-- Library returning no items from any check. -/
def lib0 : CheckLib := constLib []

/-- A tiny samples table. -/
def sdf0 : DataFrame := { header := ["sample_id", "tissue"], rows := [["S1", ""]] }

/-- A tiny files table. -/
def fdf0 : DataFrame := { header := ["sample_id", "filename"], rows := [["S1", "S1_R1.fastq"]] }

/-- An abstract stand-in for the content hash. -/
def hashLen : String → String := fun s => "sha:" ++ toString s.length

/-- A `require_columns` rule. -/
def ruleA : Rule :=
  { code := "CORE.COLS.MISSING_REQUIRED",
    check := { specOfType "require_columns" with required_columns := some ["tissue"] },
    where_ := "samples.tsv", why := "required metadata", how_to_fix := "add the column" }

/-- An `at_least_one_nonempty_per_row` rule. -/
def ruleB : Rule :=
  { code := "CORE.BIO.CONTEXT_MISSING",
    check := { specOfType "at_least_one_nonempty_per_row" with
                column_groups := some [["tissue", "cell_line", "cell_type"]] },
    where_ := "samples.tsv", why := "biological context", how_to_fix := "fill one column" }

/-- A rule with an unrecognized check type. -/
def ruleU : Rule :=
  { code := "CORE.FUTURE.CHECK",
    check := specOfType "not_yet_implemented",
    where_ := "samples.tsv", why := "future", how_to_fix := "none" }

/-- A well-formed rulepack with two rules. -/
def pack0 : RawPack :=
  { rulepack_id := some "GEO-SEQ-BULK", rulepack_version := some "0.1.0",
    rules := some [ruleA, ruleB] }

/-- A rulepack object lacking the `rules` key. -/
def packNoRules : RawPack :=
  { rulepack_id := some "GEO-SEQ-BULK", rulepack_version := some "0.1.0",
    rules := none }

/-- A row-only warning item. -/
def itR : WarningItem :=
  { kind := "k", severity := "error", message := "m", hint := "h",
    row := some 3, column := none }

/-- A column-only warning item. -/
def itC : WarningItem :=
  { kind := "k", severity := "error", message := "m", hint := "h",
    row := none, column := some "tissue" }

/-- The report of running `pack0` over the tiny tables with `libEW`. -/
def rep0 : Report :=
  buildReport libEW hashLen "t" (some "GEO-SEQ-BULK") (some "0.1.0")
    [ruleA, ruleB] sdf0 fdf0 "sp" "fp" "sc" "fc" "0.2.0"

/-- The report over rules `[ruleA] ++ [ruleB] ++ []` (rule list split for the
rule-independence theorem). -/
def rep9a : Report :=
  buildReport libEW hashLen "t" (some "GEO-SEQ-BULK") (some "0.1.0")
    ([ruleA] ++ [ruleB] ++ []) sdf0 fdf0 "sp" "fp" "sc" "fc" "0.2.0"

/-- The report over rules `[ruleA] ++ []` (`ruleB` removed). -/
def rep9b : Report :=
  buildReport libEW hashLen "t" (some "GEO-SEQ-BULK") (some "0.1.0")
    ([ruleA] ++ []) sdf0 fdf0 "sp" "fp" "sc" "fc" "0.2.0"

/-! Helper lemmas shared by the claim theorems. -/

/-- Folding append of per-element blocks equals the flattened bind. -/
theorem foldl_append_eq_bind {α β : Type} (g : α → List β) (l : List α)
    (init : List β) :
    l.foldl (fun acc x => acc ++ g x) init = init ++ l.bind g := by
  induction l generalizing init with
  | nil => simp
  | cons a l ih => simp [ih, List.append_assoc]

/-- The `all_findings` loop produces exactly the rule-ordered concatenation
of each rule's mapped findings. -/
theorem all_findings_eq_bind (lib : CheckLib) (sdf fdf : DataFrame)
    (rules : List Rule) :
    all_findings lib sdf fdf rules
      = rules.bind (fun rule =>
          (dispatchCheck lib sdf fdf rule.check).map (findingOfWarning rule)) := by
  unfold all_findings
  rw [foldl_append_eq_bind]
  simp

/-- C1: for every report built by `run_rulepack`, `fail_count` and
`warn_count` are the severity tallies over the findings and
`submission_ready` is true iff `fail_count` is zero; `warn_count` does not
occur in the readiness condition. -/
theorem run_rulepack_submission_ready_iff_no_fail
    (lib : CheckLib) (hash : String → String) (now : String)
    (raw : Option RawPack) (sdf fdf : DataFrame)
    (sp fp sc fc fv : String) (report : Report)
    (h : run_rulepack lib hash now raw sdf fdf sp fp sc fc fv
          = Except.ok report) :
    report.attestation.fail_count
        = report.findings.countP (fun f => f.severity == "FAIL")
    ∧ report.attestation.warn_count
        = report.findings.countP (fun f => f.severity == "WARN")
    ∧ (report.attestation.submission_ready = true
        ↔ report.findings.countP (fun f => f.severity == "FAIL") = 0) := by
  cases raw with
  | none => simp [run_rulepack] at h
  | some pack =>
    cases hr : pack.rules with
    | none => simp [run_rulepack, hr] at h
    | some rules =>
      simp [run_rulepack, hr] at h
      subst h
      refine ⟨rfl, rfl, ?_⟩
      simp [buildReport]

/-- Closed instance of `run_rulepack_submission_ready_iff_no_fail` at a
two-rule pack over concrete tables. -/
theorem run_rulepack_submission_ready_iff_no_fail_witness :
    run_rulepack libEW hashLen "t" (some pack0) sdf0 fdf0 "sp" "fp" "sc" "fc"
        "0.2.0" = Except.ok rep0
    ∧ (rep0.attestation.submission_ready = true
        ↔ rep0.findings.countP (fun f => f.severity == "FAIL") = 0) :=
  ⟨rfl,
    (run_rulepack_submission_ready_iff_no_fail libEW hashLen "t" (some pack0)
      sdf0 fdf0 "sp" "fp" "sc" "fc" "0.2.0" rep0 rfl).2.2⟩

/-- C2 counterexample: the internal severity `"ERROR"` is not the exact
string `"error"`, yet the mapped finding severity is `"FAIL"` (the code
lowercases before comparing). -/
theorem map_severity_not_exact_counterexample :
    (findingOfWarning ruleA { errItem with severity := "ERROR" }).severity
        = "FAIL"
    ∧ ({ errItem with severity := "ERROR" } : WarningItem).severity ≠ "error" :=
  ⟨by decide, by decide⟩

/-- C2 (amended): a finding's severity is `"FAIL"` iff the source item's
internal severity lowercases to `"error"` (case-insensitive match); every
other severity string maps to `"WARN"`. -/
theorem map_severity_case_insensitive (rule : Rule) (w : WarningItem) :
    ((findingOfWarning rule w).severity = "FAIL"
      ↔ str_lower w.severity = "error")
    ∧ ((findingOfWarning rule w).severity = "FAIL"
      ∨ (findingOfWarning rule w).severity = "WARN") := by
  by_cases h : str_lower w.severity = "error" <;>
    simp [findingOfWarning, _map_severity, h]

/-- C4: the preflight branch of the CLI exits with code 0 iff the report's
`submission_ready` is true, and with the nonzero code 1 otherwise. -/
theorem preflight_exit_code_zero_iff_ready
    (lib : CheckLib) (hash : String → String) (now : String)
    (raw : Option RawPack) (sdf fdf : DataFrame)
    (sp fp sc fc fv : String) (report : Report)
    (h : run_rulepack lib hash now raw sdf fdf sp fp sc fc fv
          = Except.ok report) :
    (preflight_exit_code report = 0
      ↔ report.attestation.submission_ready = true)
    ∧ (report.attestation.submission_ready = false
      → preflight_exit_code report = 1) := by
  unfold preflight_exit_code
  cases hb : report.attestation.submission_ready <;> simp

/-- Closed instance of `preflight_exit_code_zero_iff_ready` at a concrete
preflight run. -/
theorem preflight_exit_code_zero_iff_ready_witness :
    run_rulepack libEW hashLen "t" (some pack0) sdf0 fdf0 "sp" "fp" "sc" "fc"
        "0.2.0" = Except.ok rep0
    ∧ (preflight_exit_code rep0 = 0
        ↔ rep0.attestation.submission_ready = true) :=
  ⟨rfl,
    (preflight_exit_code_zero_iff_ready libEW hashLen "t" (some pack0)
      sdf0 fdf0 "sp" "fp" "sc" "fc" "0.2.0" rep0 rfl).1⟩

/-- C7: `run_rulepack` fails with a `ConfigError`-kind error — returning no
report at all — when the rulepack JSON is malformed (`raw = none`) or when
its top-level object lacks the `rules` key. -/
theorem run_rulepack_config_error
    (lib : CheckLib) (hash : String → String) (now : String)
    (sdf fdf : DataFrame) (sp fp sc fc fv : String) :
    run_rulepack lib hash now none sdf fdf sp fp sc fc fv
        = Except.error (RunError.configError "malformed rulepack JSON")
    ∧ (∀ pack : RawPack, pack.rules = none →
        run_rulepack lib hash now (some pack) sdf fdf sp fp sc fc fv
          = Except.error (RunError.configError "rulepack missing rules key")) := by
  refine ⟨rfl, ?_⟩
  intro pack hp
  simp [run_rulepack, hp]

/-- Closed instance of `run_rulepack_config_error` at a pack lacking the
`rules` key. -/
theorem run_rulepack_config_error_witness :
    packNoRules.rules = none
    ∧ run_rulepack lib0 hashLen "t" (some packNoRules) sdf0 fdf0 "sp" "fp"
        "sc" "fc" "0.2.0"
      = Except.error (RunError.configError "rulepack missing rules key") :=
  ⟨rfl,
    (run_rulepack_config_error lib0 hashLen "t" sdf0 fdf0 "sp" "fp" "sc" "fc"
      "0.2.0").2 packNoRules rfl⟩

/-- C10: for an `at_least_one_nonempty_per_row` rule the dispatcher passes
only the first entry of `column_groups` to `check_bio_context` (any further
groups are ignored), and an empty or absent `column_groups` yields the empty
group. -/
theorem dispatch_bio_context_first_group_only
    (lib : CheckLib) (sdf fdf : DataFrame) (g : List String)
    (gs : List (List String)) (base : CheckSpec) :
    dispatchCheck lib sdf fdf
        { base with type := "at_least_one_nonempty_per_row",
                    column_groups := some (g :: gs) }
      = lib.check_bio_context sdf g
    ∧ dispatchCheck lib sdf fdf
        { base with type := "at_least_one_nonempty_per_row",
                    column_groups := some [] }
      = lib.check_bio_context sdf []
    ∧ dispatchCheck lib sdf fdf
        { base with type := "at_least_one_nonempty_per_row",
                    column_groups := none }
      = lib.check_bio_context sdf [] :=
  ⟨rfl, rfl, rfl⟩

/-- C3: a rule whose `check.type` is none of the six recognized kinds
dispatches to zero warning items, and running a pack containing it yields
exactly the report of the pack without it — same findings, counts and
attestation, no error. -/
theorem unknown_check_type_silently_skipped
    (lib : CheckLib) (hash : String → String) (now : String)
    (rid rver : Option String) (l₁ l₂ : List Rule) (r : Rule)
    (sdf fdf : DataFrame) (sp fp sc fc fv : String)
    (h : r.check.type ∉ knownCheckTypes) :
    dispatchCheck lib sdf fdf r.check = []
    ∧ run_rulepack lib hash now
        (some { rulepack_id := rid, rulepack_version := rver,
                rules := some (l₁ ++ [r] ++ l₂) })
        sdf fdf sp fp sc fc fv
      = run_rulepack lib hash now
          (some { rulepack_id := rid, rulepack_version := rver,
                  rules := some (l₁ ++ l₂) })
          sdf fdf sp fp sc fc fv := by
  simp only [knownCheckTypes, List.mem_cons, List.not_mem_nil, or_false,
    not_or] at h
  obtain ⟨h1, h2, h3, h4, h5, h6⟩ := h
  have hd : dispatchCheck lib sdf fdf r.check = [] := by
    simp [dispatchCheck, h1, h2, h3, h4, h5, h6]
  have hf : all_findings lib sdf fdf (l₁ ++ r :: l₂)
      = all_findings lib sdf fdf (l₁ ++ l₂) := by
    rw [all_findings_eq_bind, all_findings_eq_bind]
    simp [hd]
  exact ⟨hd, by simp [run_rulepack, buildReport, hf]⟩

/-- Closed instance of `unknown_check_type_silently_skipped` at the concrete
unrecognized rule `ruleU`. -/
theorem unknown_check_type_silently_skipped_witness :
    ruleU.check.type ∉ knownCheckTypes
    ∧ (dispatchCheck libEW sdf0 fdf0 ruleU.check = []
      ∧ run_rulepack libEW hashLen "t"
          (some { rulepack_id := some "GEO-SEQ-BULK",
                  rulepack_version := some "0.1.0",
                  rules := some ([ruleA] ++ [ruleU] ++ [ruleB]) })
          sdf0 fdf0 "sp" "fp" "sc" "fc" "0.2.0"
        = run_rulepack libEW hashLen "t"
            (some { rulepack_id := some "GEO-SEQ-BULK",
                    rulepack_version := some "0.1.0",
                    rules := some ([ruleA] ++ [ruleB]) })
            sdf0 fdf0 "sp" "fp" "sc" "fc" "0.2.0") :=
  ⟨by decide,
    unknown_check_type_silently_skipped libEW hashLen "t"
      (some "GEO-SEQ-BULK") (some "0.1.0") [ruleA] [ruleB] ruleU
      sdf0 fdf0 "sp" "fp" "sc" "fc" "0.2.0" (by decide)⟩

/-- C5: the `where` of a finding is `"row {row}"` when the item is only
row-scoped, `"column '{col}'"` when it only carries a truthy column, the two
comma-joined when both, and the rule's static fallback when neither. -/
theorem where_from_issue_four_cases (issue : WarningItem) (fb : String) :
    (rowScoped issue.row = true → colTruthy issue.column = false →
      _where_from_issue issue fb = "row " ++ toString (issue.row.getD 0))
    ∧ (rowScoped issue.row = false → colTruthy issue.column = true →
      _where_from_issue issue fb
        = "column " ++ "'" ++ issue.column.getD "" ++ "'")
    ∧ (rowScoped issue.row = true → colTruthy issue.column = true →
      _where_from_issue issue fb
        = "row " ++ toString (issue.row.getD 0) ++ ", "
            ++ ("column " ++ "'" ++ issue.column.getD "" ++ "'"))
    ∧ (rowScoped issue.row = false → colTruthy issue.column = false →
      _where_from_issue issue fb = fb) := by
  refine ⟨?_, ?_, ?_, ?_⟩ <;> intro hr hc <;>
    simp [_where_from_issue, hr, hc, str_join, String.append_assoc]

/-- Closed instances of `where_from_issue_four_cases`: one per case. -/
theorem where_from_issue_four_cases_witness :
    (rowScoped itR.row = true ∧ colTruthy itR.column = false
      ∧ _where_from_issue itR "fb" = "row " ++ toString (itR.row.getD 0))
    ∧ (rowScoped itC.row = false ∧ colTruthy itC.column = true
      ∧ _where_from_issue itC "fb"
          = "column " ++ "'" ++ itC.column.getD "" ++ "'")
    ∧ (rowScoped errItem.row = true ∧ colTruthy errItem.column = true
      ∧ _where_from_issue errItem "fb"
          = "row " ++ toString (errItem.row.getD 0) ++ ", "
              ++ ("column " ++ "'" ++ errItem.column.getD "" ++ "'"))
    ∧ (rowScoped warnItem.row = false ∧ colTruthy warnItem.column = false
      ∧ _where_from_issue warnItem "fb" = "fb") :=
  ⟨⟨by decide, by decide,
      (where_from_issue_four_cases itR "fb").1 (by decide) (by decide)⟩,
    ⟨by decide, by decide,
      (where_from_issue_four_cases itC "fb").2.1 (by decide) (by decide)⟩,
    ⟨by decide, by decide,
      (where_from_issue_four_cases errItem "fb").2.2.1 (by decide) (by decide)⟩,
    ⟨by decide, by decide,
      (where_from_issue_four_cases warnItem "fb").2.2.2 (by decide) (by decide)⟩⟩

/-- C6: the findings of a `run_rulepack` report are exactly the rules'
blocks concatenated in declaration order, each block the check's emitted
items mapped in emission order — every rule is evaluated (no short-circuit
on FAIL) and nothing is reordered, deduplicated or sorted. -/
theorem run_rulepack_findings_in_rule_order
    (lib : CheckLib) (hash : String → String) (now : String)
    (rid rver : Option String) (rules : List Rule)
    (sdf fdf : DataFrame) (sp fp sc fc fv : String) (report : Report)
    (h : run_rulepack lib hash now
          (some { rulepack_id := rid, rulepack_version := rver,
                  rules := some rules })
          sdf fdf sp fp sc fc fv = Except.ok report) :
    report.findings
      = rules.bind (fun rule =>
          (dispatchCheck lib sdf fdf rule.check).map (findingOfWarning rule)) := by
  simp [run_rulepack] at h
  subst h
  simpa [buildReport] using all_findings_eq_bind lib sdf fdf rules

/-- Closed instance of `run_rulepack_findings_in_rule_order` at the two-rule
pack `pack0`. -/
theorem run_rulepack_findings_in_rule_order_witness :
    run_rulepack libEW hashLen "t" (some pack0) sdf0 fdf0 "sp" "fp" "sc" "fc"
        "0.2.0" = Except.ok rep0
    ∧ rep0.findings
      = [ruleA, ruleB].bind (fun rule =>
          (dispatchCheck libEW sdf0 fdf0 rule.check).map (findingOfWarning rule)) :=
  ⟨rfl,
    run_rulepack_findings_in_rule_order libEW hashLen "t"
      (some "GEO-SEQ-BULK") (some "0.1.0") [ruleA, ruleB] sdf0 fdf0
      "sp" "fp" "sc" "fc" "0.2.0" rep0 rfl⟩

/-- C8: the provenance summarizer maps an empty sheet to
`header = [], n_rows = 0, n_cols = 0` (it does not fail), and on any
non-empty sheet reports `n_rows` = number of lines minus one (the header
row is excluded). -/
theorem summarize_tabular_empty_and_rowcount
    (hash : String → String) (p : String) :
    _summarize_tabular hash p ""
        = { path := p, sha256 := hash "", n_rows := 0, n_cols := 0,
            header := [] }
    ∧ (∀ content : String, splitlines content ≠ [] →
        (_summarize_tabular hash p content).n_rows
          = (splitlines content).length - 1) := by
  constructor
  · have h0 : splitlines "" = [] := by decide
    simp [_summarize_tabular, h0]
  · intro content hne
    simp [_summarize_tabular, hne]

/-- Closed instance of `summarize_tabular_empty_and_rowcount` at a two-line
sheet. -/
theorem summarize_tabular_empty_and_rowcount_witness :
    splitlines "a\tb\nr1\tr2" ≠ []
    ∧ (_summarize_tabular hashLen "p" "a\tb\nr1\tr2").n_rows
        = (splitlines "a\tb\nr1\tr2").length - 1 :=
  ⟨by decide,
    (summarize_tabular_empty_and_rowcount hashLen "p").2 "a\tb\nr1\tr2"
      (by decide)⟩

/-- Every finding mapped from a rule carries that rule's code, so a
code-inequality filter keeps the whole block. -/
theorem filter_ne_code_map (rule : Rule) (c : String) (hne : rule.code ≠ c)
    (ws : List WarningItem) :
    (ws.map (findingOfWarning rule)).filter (fun f => f.code != c)
      = ws.map (findingOfWarning rule) := by
  induction ws with
  | nil => rfl
  | cons w ws ih => simp [List.filter_cons, findingOfWarning, hne, ih]

/-- Filtering a rule's own code away empties that rule's block. -/
theorem filter_eq_code_map (rule : Rule) (ws : List WarningItem) :
    (ws.map (findingOfWarning rule)).filter (fun f => f.code != rule.code)
      = [] := by
  induction ws with
  | nil => rfl
  | cons w ws ih => simp [List.filter_cons, findingOfWarning, ih]

/-- A code-inequality filter keeps the whole contribution of a rule list
none of whose codes equal the filtered code. -/
theorem filter_ne_code_bind (lib : CheckLib) (sdf fdf : DataFrame)
    (c : String) (l : List Rule) (hl : ∀ ru ∈ l, ru.code ≠ c) :
    ((l.bind (fun rule =>
        (dispatchCheck lib sdf fdf rule.check).map (findingOfWarning rule))).filter
      (fun f => f.code != c))
      = l.bind (fun rule =>
          (dispatchCheck lib sdf fdf rule.check).map (findingOfWarning rule)) := by
  induction l with
  | nil => rfl
  | cons a l ih =>
    simp only [List.cons_bind, List.filter_append]
    rw [filter_ne_code_map a c (hl a (by simp)) _,
      ih (fun ru hru => hl ru (by simp [hru]))]

/-- C9: when rule codes are unique, removing one rule from the pack leaves
every finding with a different code identical and in the same relative
order, and decreases the severity tallies exactly by the removed rule's own
contribution. -/
theorem run_rulepack_rule_independence
    (lib : CheckLib) (hash : String → String) (now : String)
    (rid rver : Option String) (l₁ l₂ : List Rule) (r : Rule)
    (sdf fdf : DataFrame) (sp fp sc fc fv : String) (rep₁ rep₂ : Report)
    (hc : ∀ ru ∈ l₁ ++ l₂, ru.code ≠ r.code)
    (h₁ : run_rulepack lib hash now
          (some { rulepack_id := rid, rulepack_version := rver,
                  rules := some (l₁ ++ [r] ++ l₂) })
          sdf fdf sp fp sc fc fv = Except.ok rep₁)
    (h₂ : run_rulepack lib hash now
          (some { rulepack_id := rid, rulepack_version := rver,
                  rules := some (l₁ ++ l₂) })
          sdf fdf sp fp sc fc fv = Except.ok rep₂) :
    rep₁.findings.filter (fun f => f.code != r.code) = rep₂.findings
    ∧ rep₁.attestation.fail_count
        = rep₂.attestation.fail_count
          + ((dispatchCheck lib sdf fdf r.check).map (findingOfWarning r)).countP
              (fun f => f.severity == "FAIL")
    ∧ rep₁.attestation.warn_count
        = rep₂.attestation.warn_count
          + ((dispatchCheck lib sdf fdf r.check).map (findingOfWarning r)).countP
              (fun f => f.severity == "WARN") := by
  simp [run_rulepack] at h₁ h₂
  subst h₁
  subst h₂
  have hc₁ : ∀ ru ∈ l₁, ru.code ≠ r.code := fun ru hru => hc ru (by simp [hru])
  have hc₂ : ∀ ru ∈ l₂, ru.code ≠ r.code := fun ru hru => hc ru (by simp [hru])
  have e₁ : all_findings lib sdf fdf (l₁ ++ r :: l₂)
      = (l₁.bind (fun rule =>
            (dispatchCheck lib sdf fdf rule.check).map (findingOfWarning rule)))
        ++ ((dispatchCheck lib sdf fdf r.check).map (findingOfWarning r)
        ++ l₂.bind (fun rule =>
            (dispatchCheck lib sdf fdf rule.check).map (findingOfWarning rule))) := by
    rw [all_findings_eq_bind]
    simp
  have e₂ : all_findings lib sdf fdf (l₁ ++ l₂)
      = (l₁.bind (fun rule =>
            (dispatchCheck lib sdf fdf rule.check).map (findingOfWarning rule)))
        ++ l₂.bind (fun rule =>
            (dispatchCheck lib sdf fdf rule.check).map (findingOfWarning rule)) := by
    rw [all_findings_eq_bind]
    simp
  refine ⟨?_, ?_, ?_⟩
  · show (all_findings lib sdf fdf (l₁ ++ r :: l₂)).filter
        (fun f => f.code != r.code) = all_findings lib sdf fdf (l₁ ++ l₂)
    rw [e₁, e₂, List.filter_append, List.filter_append,
      filter_ne_code_bind lib sdf fdf r.code l₁ hc₁,
      filter_ne_code_bind lib sdf fdf r.code l₂ hc₂,
      filter_eq_code_map]
    simp
  · show (all_findings lib sdf fdf (l₁ ++ r :: l₂)).countP
          (fun f => f.severity == "FAIL")
        = (all_findings lib sdf fdf (l₁ ++ l₂)).countP
            (fun f => f.severity == "FAIL") + _
    rw [e₁, e₂, List.countP_append, List.countP_append, List.countP_append]
    omega
  · show (all_findings lib sdf fdf (l₁ ++ r :: l₂)).countP
          (fun f => f.severity == "WARN")
        = (all_findings lib sdf fdf (l₁ ++ l₂)).countP
            (fun f => f.severity == "WARN") + _
    rw [e₁, e₂, List.countP_append, List.countP_append, List.countP_append]
    omega

/-- Closed instance of `run_rulepack_rule_independence`: removing `ruleB`
from a two-rule pack. -/
theorem run_rulepack_rule_independence_witness :
    (∀ ru ∈ [ruleA] ++ ([] : List Rule), ru.code ≠ ruleB.code)
    ∧ (rep9a.findings.filter (fun f => f.code != ruleB.code) = rep9b.findings
      ∧ rep9a.attestation.fail_count
          = rep9b.attestation.fail_count
            + ((dispatchCheck libEW sdf0 fdf0 ruleB.check).map
                (findingOfWarning ruleB)).countP (fun f => f.severity == "FAIL")
      ∧ rep9a.attestation.warn_count
          = rep9b.attestation.warn_count
            + ((dispatchCheck libEW sdf0 fdf0 ruleB.check).map
                (findingOfWarning ruleB)).countP (fun f => f.severity == "WARN")) :=
  ⟨by decide,
    run_rulepack_rule_independence libEW hashLen "t"
      (some "GEO-SEQ-BULK") (some "0.1.0") [ruleA] [] ruleB
      sdf0 fdf0 "sp" "fp" "sc" "fc" "0.2.0" rep9a rep9b (by decide) rfl rfl⟩
